import Mathlib

/-!
Verification of the point-sample interpolation engine of this repository.
The engine is described by the specification and exercised by the test file
autotest/gcore/interpolateatpoint.py; the engine implementation itself is not
part of the source tree, so its behaviour is modelled from the specification.
Where the tests pin behaviour that the prose of the specification misses
(window reads clamped to the grid edge, with the absent result governed by
the query point leaving the raster extent, as forced by the asserted value
3.8 for the query (1.5, 1.5) on the 3 x 2 raster), the model follows the
tests, and the affected statements are recorded below as corrections.
Sample values and coordinates are modelled with exact rationals.
-/

namespace InterpolateAtPoint

/-- Modelled from the spec: a raster band (the engine implementation is not in
the source tree). It exposes a width and a height and a sample value at each
integer (row, col); samples are meaningful only inside the grid, and queryable
bands have positive width and height. -/
structure RasterBand where
  width : ℕ
  height : ℕ
  pix : ℤ → ℤ → ℚ

/-- Modelled from the spec: membership of a cell in the grid extent
[0, width) x [0, height). -/
def inGrid (b : RasterBand) (row col : ℤ) : Prop :=
  0 ≤ row ∧ row < (b.height : ℤ) ∧ 0 ≤ col ∧ col < (b.width : ℤ)

instance (b : RasterBand) (row col : ℤ) : Decidable (inGrid b row col) := by
  unfold inGrid
  exact inferInstance

/-- Modelled from the spec and tests: membership of a query point in the
closed raster extent [0, width] x [0, height]; queries outside it are the
out-of-range queries surfaced as the absent result. -/
def inExtent (b : RasterBand) (x y : ℚ) : Prop :=
  0 ≤ x ∧ x ≤ (b.width : ℚ) ∧ 0 ≤ y ∧ y ≤ (b.height : ℚ)

instance (b : RasterBand) (x y : ℚ) : Decidable (inExtent b x y) := by
  unfold inExtent
  exact inferInstance

/-- Clamp a row index into the grid row range [0, height - 1]. -/
def clampRow (b : RasterBand) (r : ℤ) : ℤ :=
  max 0 (min r ((b.height : ℤ) - 1))

/-- Clamp a column index into the grid column range [0, width - 1]. -/
def clampCol (b : RasterBand) (c : ℤ) : ℤ :=
  max 0 (min c ((b.width : ℤ) - 1))

/-- Modelled from the spec and tests: the window read used by the extractor;
indices past the grid edge are clamped to the edge (edge replication), as the
asserted value for the query (1.5, 1.5) on the 3 x 2 test raster requires. -/
def readClamped (b : RasterBand) (row col : ℤ) : ℚ :=
  b.pix (clampRow b row) (clampCol b col)

/-- Modelled from the spec: the method selector offered to callers; only
Nearest, Bilinear and CubicSpline are supported interpolation methods, the
remaining selectors of the resampling enumeration are invalid arguments. -/
inductive InterpolationMethod where
  | Nearest
  | Bilinear
  | CubicSpline
  | Cubic
  | Lanczos
  | Average
  | Mode
  | Gauss
deriving DecidableEq

/-- Modelled from the spec: the external error-reporting policy selected by
the surrounding system. -/
inductive ErrorPolicy where
  | quiet
  | strict
deriving DecidableEq

/-- Modelled from the spec: the outcome of a call, either a normal return
carrying an optional scalar (present value or absent result), or a raised
failure carrying a message. -/
inductive InterpResult where
  | ok : Option ℚ → InterpResult
  | failure : String → InterpResult
deriving DecidableEq

/-- Modelled from the spec: the 2 x 2 bilinear footprint, rows iy and iy+1 by
cols ix and ix+1, fetched through the clamped window read. -/
def window2x2 (b : RasterBand) (ix iy : ℤ) : ℚ × ℚ × ℚ × ℚ :=
  (readClamped b iy ix, readClamped b iy (ix + 1),
   readClamped b (iy + 1) ix, readClamped b (iy + 1) (ix + 1))

/-- Modelled from the spec: one row of the 4 x 4 cubic-spline footprint,
cols ix-1 to ix+2, fetched through the clamped window read. -/
def window4row (b : RasterBand) (row ix : ℤ) : ℚ × ℚ × ℚ × ℚ :=
  (readClamped b row (ix - 1), readClamped b row ix,
   readClamped b row (ix + 1), readClamped b row (ix + 2))

/-- Modelled from the spec: nearest-neighbour kernel. The query is shifted by
half a pixel (pixel-center convention fixed by the spec data model) and then
rounded half-up to the nearest integer pixel; that single sample is returned
with no blending. -/
def nearestVal (b : RasterBand) (x y : ℚ) : ℚ :=
  readClamped b ⌊y - 1/2 + 1/2⌋ ⌊x - 1/2 + 1/2⌋

/-- Modelled from the spec: bilinear kernel. The query is shifted by half a
pixel (so that the query (0.5, 0.5) reads pixel (0, 0) purely), floored to
(ix, iy) with fractional remainders (dx, dy), and the separable linear blend
is applied to the 2 x 2 window. -/
def bilinearVal (b : RasterBand) (x y : ℚ) : ℚ :=
  let tx := x - 1/2
  let ty := y - 1/2
  let ix := ⌊tx⌋
  let iy := ⌊ty⌋
  let dx := tx - ix
  let dy := ty - iy
  let w := window2x2 b ix iy
  w.1 * (1 - dx) * (1 - dy) + w.2.1 * dx * (1 - dy) +
    w.2.2.1 * (1 - dx) * dy + w.2.2.2 * dx * dy

/-- Modelled from the spec: the uniform cubic B-spline 1D convolution of the
four taps at offsets -1, 0, 1, 2, with fractional offset t in [0, 1). -/
def bspline3 (t vm1 v0 v1 v2 : ℚ) : ℚ :=
  ((1 - t)^3 * vm1 + (3*t^3 - 6*t^2 + 4) * v0 +
   (-3*t^3 + 3*t^2 + 3*t + 1) * v1 + t^3 * v2) / 6

/-- Convolve one fetched row of four samples along x. -/
def bsplineRow (t : ℚ) (r : ℚ × ℚ × ℚ × ℚ) : ℚ :=
  bspline3 t r.1 r.2.1 r.2.2.1 r.2.2.2

/-- Modelled from the spec: cubic-spline kernel. Shift by half a pixel, floor
to (ix, iy), fetch the 4 x 4 window rows iy-1 to iy+2, convolve each row
along x with the B-spline weights, then convolve the four intermediates
along y. -/
def cubicSplineVal (b : RasterBand) (x y : ℚ) : ℚ :=
  let tx := x - 1/2
  let ty := y - 1/2
  let ix := ⌊tx⌋
  let iy := ⌊ty⌋
  let dx := tx - ix
  let dy := ty - iy
  bspline3 dy (bsplineRow dx (window4row b (iy - 1) ix))
              (bsplineRow dx (window4row b iy ix))
              (bsplineRow dx (window4row b (iy + 1) ix))
              (bsplineRow dx (window4row b (iy + 2) ix))

/-- Modelled from the spec: the failure message raised for an unsupported
method under the strict policy. -/
def invalidMethodMessage : String :=
  "Only nearest, bilinear and cubicspline interpolation methods allowed"

/-- Modelled from the spec and tests: the dispatcher validates the method
first, surfaces an out-of-extent query as the absent result, and otherwise
returns the value of the matching kernel. An unsupported method is governed
by the error policy: absent under the quiet policy, a raised failure under
the strict policy. -/
def interpolateAtPoint (b : RasterBand) (x y : ℚ)
    (method : InterpolationMethod) (policy : ErrorPolicy) : InterpResult :=
  match method with
  | .Nearest => .ok (if inExtent b x y then some (nearestVal b x y) else none)
  | .Bilinear => .ok (if inExtent b x y then some (bilinearVal b x y) else none)
  | .CubicSpline => .ok (if inExtent b x y then some (cubicSplineVal b x y) else none)
  | _ =>
    match policy with
    | .quiet => .ok none
    | .strict => .failure invalidMethodMessage

/-! Basic lemmas about clamping and the dispatcher. -/

theorem clampRow_of_inGrid {b : RasterBand} {row col : ℤ} (h : inGrid b row col) :
    clampRow b row = row := by
  obtain ⟨h1, h2, h3, h4⟩ := h
  unfold clampRow
  omega

theorem clampCol_of_inGrid {b : RasterBand} {row col : ℤ} (h : inGrid b row col) :
    clampCol b col = col := by
  obtain ⟨h1, h2, h3, h4⟩ := h
  unfold clampCol
  omega

theorem readClamped_eq_pix {b : RasterBand} {row col : ℤ} (h : inGrid b row col) :
    readClamped b row col = b.pix row col := by
  unfold readClamped
  rw [clampRow_of_inGrid h, clampCol_of_inGrid h]

theorem clamped_inGrid (b : RasterBand) (row col : ℤ)
    (hw : 0 < b.width) (hh : 0 < b.height) :
    inGrid b (clampRow b row) (clampCol b col) := by
  unfold inGrid clampRow clampCol
  omega

theorem interpolate_nearest_in {b : RasterBand} {x y : ℚ} (p : ErrorPolicy)
    (h : inExtent b x y) :
    interpolateAtPoint b x y .Nearest p = .ok (some (nearestVal b x y)) := by
  simp only [interpolateAtPoint, if_pos h]

theorem interpolate_bilinear_in {b : RasterBand} {x y : ℚ} (p : ErrorPolicy)
    (h : inExtent b x y) :
    interpolateAtPoint b x y .Bilinear p = .ok (some (bilinearVal b x y)) := by
  simp only [interpolateAtPoint, if_pos h]

theorem interpolate_cubicspline_in {b : RasterBand} {x y : ℚ} (p : ErrorPolicy)
    (h : inExtent b x y) :
    interpolateAtPoint b x y .CubicSpline p = .ok (some (cubicSplineVal b x y)) := by
  simp only [interpolateAtPoint, if_pos h]

theorem interpolate_nearest_out {b : RasterBand} {x y : ℚ} (p : ErrorPolicy)
    (h : ¬ inExtent b x y) :
    interpolateAtPoint b x y .Nearest p = .ok none := by
  simp only [interpolateAtPoint, if_neg h]

theorem interpolate_bilinear_out {b : RasterBand} {x y : ℚ} (p : ErrorPolicy)
    (h : ¬ inExtent b x y) :
    interpolateAtPoint b x y .Bilinear p = .ok none := by
  simp only [interpolateAtPoint, if_neg h]

theorem interpolate_cubicspline_out {b : RasterBand} {x y : ℚ} (p : ErrorPolicy)
    (h : ¬ inExtent b x y) :
    interpolateAtPoint b x y .CubicSpline p = .ok none := by
  simp only [interpolateAtPoint, if_neg h]

/-- The engine reads the band only through the clamped accessor, so for
queryable bands of equal extent its result depends only on the in-grid
samples of the band it is given. -/
theorem interpolateAtPoint_congr (b1 b2 : RasterBand)
    (hwpos : 0 < b1.width) (hhpos : 0 < b1.height)
    (hw : b1.width = b2.width) (hh : b1.height = b2.height)
    (hp : ∀ r c : ℤ, inGrid b1 r c → b1.pix r c = b2.pix r c)
    (x y : ℚ) (m : InterpolationMethod) (p : ErrorPolicy) :
    interpolateAtPoint b1 x y m p = interpolateAtPoint b2 x y m p := by
  have hclr : ∀ r : ℤ, clampRow b1 r = clampRow b2 r := by
    intro r
    unfold clampRow
    rw [hh]
  have hclc : ∀ c : ℤ, clampCol b1 c = clampCol b2 c := by
    intro c
    unfold clampCol
    rw [hw]
  have hread : ∀ r c : ℤ, readClamped b1 r c = readClamped b2 r c := by
    intro r c
    unfold readClamped
    rw [← hclr, ← hclc]
    exact hp _ _ (clamped_inGrid b1 r c hwpos hhpos)
  have hext : inExtent b1 x y ↔ inExtent b2 x y := by
    unfold inExtent
    rw [hw, hh]
  have hw2 : ∀ ix iy : ℤ, window2x2 b1 ix iy = window2x2 b2 ix iy := by
    intro ix iy
    unfold window2x2
    simp only [hread]
  have hw4 : ∀ row ix : ℤ, window4row b1 row ix = window4row b2 row ix := by
    intro row ix
    unfold window4row
    simp only [hread]
  cases m <;>
    simp only [interpolateAtPoint, nearestVal, bilinearVal, cubicSplineVal,
      hread, hw2, hw4, hext]

/-! Concrete grids taken from the tests in autotest/gcore/interpolateatpoint.py. -/

/-- Band 1 of test_interpolateatpoint_2_bands: the 2 x 2 grid
[[10.5, 1.3], [2.4, 3.8]]. -/
def grid22 : RasterBand where
  width := 2
  height := 2
  pix := fun r c =>
    if r = 0 then (if c = 0 then 21/2 else 13/10)
    else (if c = 0 then 12/5 else 19/5)

/-- Band 2 of test_interpolateatpoint_2_bands: the 2 x 2 grid
[[10.5, 1.3], [-2.4, 3.8]], with a negative sample. -/
def grid22neg : RasterBand where
  width := 2
  height := 2
  pix := fun r c =>
    if r = 0 then (if c = 0 then 21/2 else 13/10)
    else (if c = 0 then -(12/5) else 19/5)

/-- Grid of test_interpolateatpoint_bilinear_several_points: the 2 x 3 grid
[[10.5, 1.3, 0.5], [2.4, 3.8, -1.0]]. -/
def grid23 : RasterBand where
  width := 3
  height := 2
  pix := fun r c =>
    if r = 0 then (if c = 0 then 21/2 else if c = 1 then 13/10 else 1/2)
    else (if c = 0 then 12/5 else if c = 1 then 19/5 else -1)

/-- Grid of test_interpolateatpoint_cubicspline_several_points: the 4 x 4 grid
whose every row is [1.0, 2.0, 1.5, -0.3]. -/
def grid44 : RasterBand where
  width := 4
  height := 4
  pix := fun _ c =>
    if c = 0 then 1 else if c = 1 then 2 else if c = 2 then 3/2 else -(3/10)

/-! Kernel evaluation lemmas parameterized by the computed floor values. -/

theorem nearestVal_eq (b : RasterBand) (x y : ℚ) (cx cy : ℤ)
    (hx : ⌊x - 1/2 + 1/2⌋ = cx) (hy : ⌊y - 1/2 + 1/2⌋ = cy) :
    nearestVal b x y = readClamped b cy cx := by
  simp only [nearestVal, hx, hy]

theorem bilinearVal_eq (b : RasterBand) (x y : ℚ) (ix iy : ℤ)
    (hx : ⌊x - 1/2⌋ = ix) (hy : ⌊y - 1/2⌋ = iy) :
    bilinearVal b x y =
      readClamped b iy ix * (1 - (x - 1/2 - ix)) * (1 - (y - 1/2 - iy)) +
      readClamped b iy (ix + 1) * (x - 1/2 - ix) * (1 - (y - 1/2 - iy)) +
      readClamped b (iy + 1) ix * (1 - (x - 1/2 - ix)) * (y - 1/2 - iy) +
      readClamped b (iy + 1) (ix + 1) * (x - 1/2 - ix) * (y - 1/2 - iy) := by
  simp only [bilinearVal, window2x2, hx, hy]

theorem cubicSplineVal_eq (b : RasterBand) (x y : ℚ) (ix iy : ℤ)
    (hx : ⌊x - 1/2⌋ = ix) (hy : ⌊y - 1/2⌋ = iy) :
    cubicSplineVal b x y =
      bspline3 (y - 1/2 - iy)
        (bspline3 (x - 1/2 - ix)
          (readClamped b (iy - 1) (ix - 1)) (readClamped b (iy - 1) ix)
          (readClamped b (iy - 1) (ix + 1)) (readClamped b (iy - 1) (ix + 2)))
        (bspline3 (x - 1/2 - ix)
          (readClamped b iy (ix - 1)) (readClamped b iy ix)
          (readClamped b iy (ix + 1)) (readClamped b iy (ix + 2)))
        (bspline3 (x - 1/2 - ix)
          (readClamped b (iy + 1) (ix - 1)) (readClamped b (iy + 1) ix)
          (readClamped b (iy + 1) (ix + 1)) (readClamped b (iy + 1) (ix + 2)))
        (bspline3 (x - 1/2 - ix)
          (readClamped b (iy + 2) (ix - 1)) (readClamped b (iy + 2) ix)
          (readClamped b (iy + 2) (ix + 1)) (readClamped b (iy + 2) (ix + 2))) := by
  simp only [cubicSplineVal, window4row, bsplineRow, hx, hy]

/-! Concrete kernel values at the query points of the tests. -/

theorem bilinearVal_grid22_11 : bilinearVal grid22 1 1 = 9/2 := by
  have hf : ⌊(1:ℚ) - 1/2⌋ = 0 := by
    rw [Int.floor_eq_iff]
    norm_num
  rw [bilinearVal_eq grid22 1 1 0 0 hf hf,
      readClamped_eq_pix (by norm_num [inGrid, grid22]),
      readClamped_eq_pix (by norm_num [inGrid, grid22]),
      readClamped_eq_pix (by norm_num [inGrid, grid22]),
      readClamped_eq_pix (by norm_num [inGrid, grid22])]
  norm_num [grid22]

theorem bilinearVal_grid22_half : bilinearVal grid22 (1/2) (1/2) = 21/2 := by
  have hf : ⌊(1:ℚ)/2 - 1/2⌋ = 0 := by
    rw [Int.floor_eq_iff]
    norm_num
  rw [bilinearVal_eq grid22 (1/2) (1/2) 0 0 hf hf,
      readClamped_eq_pix (by norm_num [inGrid, grid22]),
      readClamped_eq_pix (by norm_num [inGrid, grid22]),
      readClamped_eq_pix (by norm_num [inGrid, grid22]),
      readClamped_eq_pix (by norm_num [inGrid, grid22])]
  norm_num [grid22]

theorem bilinearVal_grid22neg_11 : bilinearVal grid22neg 1 1 = 33/10 := by
  have hf : ⌊(1:ℚ) - 1/2⌋ = 0 := by
    rw [Int.floor_eq_iff]
    norm_num
  rw [bilinearVal_eq grid22neg 1 1 0 0 hf hf,
      readClamped_eq_pix (by norm_num [inGrid, grid22neg]),
      readClamped_eq_pix (by norm_num [inGrid, grid22neg]),
      readClamped_eq_pix (by norm_num [inGrid, grid22neg]),
      readClamped_eq_pix (by norm_num [inGrid, grid22neg])]
  norm_num [grid22neg]

theorem bilinearVal_grid23_21 : bilinearVal grid23 2 1 = 23/20 := by
  have hfx : ⌊(2:ℚ) - 1/2⌋ = 1 := by
    rw [Int.floor_eq_iff]
    norm_num
  have hfy : ⌊(1:ℚ) - 1/2⌋ = 0 := by
    rw [Int.floor_eq_iff]
    norm_num
  rw [bilinearVal_eq grid23 2 1 1 0 hfx hfy,
      readClamped_eq_pix (by norm_num [inGrid, grid23]),
      readClamped_eq_pix (by norm_num [inGrid, grid23]),
      readClamped_eq_pix (by norm_num [inGrid, grid23]),
      readClamped_eq_pix (by norm_num [inGrid, grid23])]
  norm_num [grid23]

theorem bilinearVal_grid23_frac : bilinearVal grid23 (21/10) (6/5) = 89/100 := by
  have hfx : ⌊(21:ℚ)/10 - 1/2⌋ = 1 := by
    rw [Int.floor_eq_iff]
    norm_num
  have hfy : ⌊(6:ℚ)/5 - 1/2⌋ = 0 := by
    rw [Int.floor_eq_iff]
    norm_num
  rw [bilinearVal_eq grid23 (21/10) (6/5) 1 0 hfx hfy,
      readClamped_eq_pix (by norm_num [inGrid, grid23]),
      readClamped_eq_pix (by norm_num [inGrid, grid23]),
      readClamped_eq_pix (by norm_num [inGrid, grid23]),
      readClamped_eq_pix (by norm_num [inGrid, grid23])]
  norm_num [grid23]

theorem bilinearVal_grid23_edge : bilinearVal grid23 (3/2) (3/2) = 19/5 := by
  have hf : ⌊(3:ℚ)/2 - 1/2⌋ = 1 := by
    rw [Int.floor_eq_iff]
    norm_num
  have hc1 : readClamped grid23 (1 + 1) 1 = grid23.pix 1 1 := by
    unfold readClamped clampRow clampCol
    norm_num [grid23]
  have hc2 : readClamped grid23 (1 + 1) (1 + 1) = grid23.pix 1 2 := by
    unfold readClamped clampRow clampCol
    norm_num [grid23]
  rw [bilinearVal_eq grid23 (3/2) (3/2) 1 1 hf hf,
      readClamped_eq_pix (by norm_num [inGrid, grid23]),
      readClamped_eq_pix (by norm_num [inGrid, grid23]),
      hc1, hc2]
  norm_num [grid23]

theorem cubicSplineVal_grid44_15 : cubicSplineVal grid44 (3/2) (3/2) = 7/4 := by
  have hf : ⌊(3:ℚ)/2 - 1/2⌋ = 1 := by
    rw [Int.floor_eq_iff]
    norm_num
  rw [cubicSplineVal_eq grid44 (3/2) (3/2) 1 1 hf hf,
      readClamped_eq_pix (by norm_num [inGrid, grid44]),
      readClamped_eq_pix (by norm_num [inGrid, grid44]),
      readClamped_eq_pix (by norm_num [inGrid, grid44]),
      readClamped_eq_pix (by norm_num [inGrid, grid44]),
      readClamped_eq_pix (by norm_num [inGrid, grid44]),
      readClamped_eq_pix (by norm_num [inGrid, grid44]),
      readClamped_eq_pix (by norm_num [inGrid, grid44]),
      readClamped_eq_pix (by norm_num [inGrid, grid44]),
      readClamped_eq_pix (by norm_num [inGrid, grid44]),
      readClamped_eq_pix (by norm_num [inGrid, grid44]),
      readClamped_eq_pix (by norm_num [inGrid, grid44]),
      readClamped_eq_pix (by norm_num [inGrid, grid44]),
      readClamped_eq_pix (by norm_num [inGrid, grid44]),
      readClamped_eq_pix (by norm_num [inGrid, grid44]),
      readClamped_eq_pix (by norm_num [inGrid, grid44]),
      readClamped_eq_pix (by norm_num [inGrid, grid44])]
  norm_num [grid44, bspline3]

theorem cubicSplineVal_grid44_22 : cubicSplineVal grid44 2 2 = 203/120 := by
  have hf : ⌊(2:ℚ) - 1/2⌋ = 1 := by
    rw [Int.floor_eq_iff]
    norm_num
  rw [cubicSplineVal_eq grid44 2 2 1 1 hf hf,
      readClamped_eq_pix (by norm_num [inGrid, grid44]),
      readClamped_eq_pix (by norm_num [inGrid, grid44]),
      readClamped_eq_pix (by norm_num [inGrid, grid44]),
      readClamped_eq_pix (by norm_num [inGrid, grid44]),
      readClamped_eq_pix (by norm_num [inGrid, grid44]),
      readClamped_eq_pix (by norm_num [inGrid, grid44]),
      readClamped_eq_pix (by norm_num [inGrid, grid44]),
      readClamped_eq_pix (by norm_num [inGrid, grid44]),
      readClamped_eq_pix (by norm_num [inGrid, grid44]),
      readClamped_eq_pix (by norm_num [inGrid, grid44]),
      readClamped_eq_pix (by norm_num [inGrid, grid44]),
      readClamped_eq_pix (by norm_num [inGrid, grid44]),
      readClamped_eq_pix (by norm_num [inGrid, grid44]),
      readClamped_eq_pix (by norm_num [inGrid, grid44]),
      readClamped_eq_pix (by norm_num [inGrid, grid44]),
      readClamped_eq_pix (by norm_num [inGrid, grid44])]
  norm_num [grid44, bspline3]

/-- Helper: a bilinear query whose fractional offsets are both zero returns
the single window corner sample, because the three other window samples
receive weight zero. -/
theorem bilinear_at_corner (b : RasterBand) (ix iy : ℤ)
    (hin : inExtent b ((ix : ℚ) + 1/2) ((iy : ℚ) + 1/2)) (hg : inGrid b iy ix) :
    interpolateAtPoint b ((ix : ℚ) + 1/2) ((iy : ℚ) + 1/2) .Bilinear .quiet =
      .ok (some (b.pix iy ix)) := by
  have hx : ⌊((ix : ℚ) + 1/2) - 1/2⌋ = ix := by
    rw [show ((ix : ℚ) + 1/2) - 1/2 = (ix : ℚ) by ring, Int.floor_intCast]
  have hy : ⌊((iy : ℚ) + 1/2) - 1/2⌋ = iy := by
    rw [show ((iy : ℚ) + 1/2) - 1/2 = (iy : ℚ) by ring, Int.floor_intCast]
  rw [interpolate_bilinear_in _ hin, bilinearVal_eq b _ _ ix iy hx hy,
      readClamped_eq_pix hg]
  simp only [InterpResult.ok.injEq, Option.some.injEq]
  ring

/-! Claim theorems. -/

/-- C1: for every band and in-extent point, a method outside the supported
set (Nearest, Bilinear, CubicSpline) yields the absent result under the quiet
policy and, under the strict policy, a raised failure whose message is
exactly the fixed invalid-method message; the condition is detected under
both policies. -/
theorem unsupported_method_policy (b : RasterBand) (x y : ℚ)
    (m : InterpolationMethod) (_hin : inExtent b x y)
    (hm : m ≠ .Nearest ∧ m ≠ .Bilinear ∧ m ≠ .CubicSpline) :
    interpolateAtPoint b x y m .quiet = .ok none ∧
    interpolateAtPoint b x y m .strict =
      .failure "Only nearest, bilinear and cubicspline interpolation methods allowed" := by
  cases m <;> simp_all [interpolateAtPoint, invalidMethodMessage]

theorem unsupported_method_policy_witness :
    (inExtent grid22 1 1 ∧
     (InterpolationMethod.Mode ≠ .Nearest ∧ InterpolationMethod.Mode ≠ .Bilinear ∧
      InterpolationMethod.Mode ≠ .CubicSpline)) ∧
    interpolateAtPoint grid22 1 1 .Mode .quiet = .ok none ∧
    interpolateAtPoint grid22 1 1 .Mode .strict =
      .failure "Only nearest, bilinear and cubicspline interpolation methods allowed" := by
  have hin : inExtent grid22 1 1 := by norm_num [inExtent, grid22]
  have hm : InterpolationMethod.Mode ≠ .Nearest ∧ InterpolationMethod.Mode ≠ .Bilinear ∧
      InterpolationMethod.Mode ≠ .CubicSpline := by
    refine ⟨?_, ?_, ?_⟩ <;> intro h <;> cases h
  exact ⟨⟨hin, hm⟩, unsupported_method_policy grid22 1 1 .Mode hin hm⟩

/-- C2 counterexample: on the 2 x 3 test grid the bilinear footprint of the
query (1.5, 1.5) contains the cell (row 2, col 1), which lies outside the
grid extent, yet the call does not return the absent result: it returns the
present value 3.8 asserted by test_interpolateatpoint_bilinear_several_points. -/
theorem footprint_overflow_returns_value :
    ¬ inGrid grid23 (⌊(3:ℚ)/2 - 1/2⌋ + 1) ⌊(3:ℚ)/2 - 1/2⌋ ∧
    interpolateAtPoint grid23 (3/2) (3/2) .Bilinear .quiet = .ok (some (19/5)) ∧
    interpolateAtPoint grid23 (3/2) (3/2) .Bilinear .quiet ≠ .ok none := by
  have hf : ⌊(3:ℚ)/2 - 1/2⌋ = 1 := by
    rw [Int.floor_eq_iff]
    norm_num
  have hval : interpolateAtPoint grid23 (3/2) (3/2) .Bilinear .quiet = .ok (some (19/5)) := by
    rw [interpolate_bilinear_in _ (by norm_num [inExtent, grid23]), bilinearVal_grid23_edge]
  refine ⟨?_, hval, ?_⟩
  · rw [hf]
    norm_num [inGrid, grid23]
  · rw [hval]
    simp

/-- C2 amended: for every band, supported method and policy, a query whose
point lies outside the closed raster extent returns the absent result, and a
query with a supported method never raises a failure under either policy;
a query inside the extent returns a present value even when the footprint
protrudes past the grid edge, because window reads are edge-clamped. -/
theorem out_of_extent_absent_never_fails (b : RasterBand) (x y : ℚ)
    (m : InterpolationMethod) (p : ErrorPolicy)
    (hm : m = .Nearest ∨ m = .Bilinear ∨ m = .CubicSpline) :
    (¬ inExtent b x y → interpolateAtPoint b x y m p = .ok none) ∧
    (∃ o : Option ℚ, interpolateAtPoint b x y m p = .ok o) ∧
    (inExtent b x y → ∃ v : ℚ, interpolateAtPoint b x y m p = .ok (some v)) := by
  rcases hm with h | h | h <;> subst h
  · exact ⟨fun hout => interpolate_nearest_out p hout, ⟨_, rfl⟩,
      fun hin => ⟨nearestVal b x y, interpolate_nearest_in p hin⟩⟩
  · exact ⟨fun hout => interpolate_bilinear_out p hout, ⟨_, rfl⟩,
      fun hin => ⟨bilinearVal b x y, interpolate_bilinear_in p hin⟩⟩
  · exact ⟨fun hout => interpolate_cubicspline_out p hout, ⟨_, rfl⟩,
      fun hin => ⟨cubicSplineVal b x y, interpolate_cubicspline_in p hin⟩⟩

theorem out_of_extent_absent_never_fails_witness :
    (InterpolationMethod.Bilinear = .Nearest ∨ InterpolationMethod.Bilinear = .Bilinear ∨
     InterpolationMethod.Bilinear = .CubicSpline) ∧
    ¬ inExtent grid22 1000 120 ∧
    interpolateAtPoint grid22 1000 120 .Bilinear .quiet = .ok none := by
  have hm : InterpolationMethod.Bilinear = .Nearest ∨ InterpolationMethod.Bilinear = .Bilinear ∨
      InterpolationMethod.Bilinear = .CubicSpline := Or.inr (Or.inl rfl)
  have hout : ¬ inExtent grid22 1000 120 := by norm_num [inExtent, grid22]
  exact ⟨hm, hout,
    (out_of_extent_absent_never_fails grid22 1000 120 .Bilinear .quiet hm).1 hout⟩

/-- C3 counterexample: the claim floors the raw query coordinates, so for the
query (2, 1) on the 2 x 3 test grid it predicts the footprint rows 1 and 2 by
cols 2 and 3, whose cells (2, 2) and (1, 3) lie outside the grid, and hence
an absent result; the call instead returns the present value 1.15 asserted by
test_interpolateatpoint_bilinear_several_points, computed from the footprint
of the half-pixel-shifted coordinates. -/
theorem unshifted_floor_footprint_refuted :
    ¬ inGrid grid23 (⌊(1:ℚ)⌋ + 1) ⌊(2:ℚ)⌋ ∧
    ¬ inGrid grid23 ⌊(1:ℚ)⌋ (⌊(2:ℚ)⌋ + 1) ∧
    interpolateAtPoint grid23 2 1 .Bilinear .quiet = .ok (some (23/20)) ∧
    interpolateAtPoint grid23 2 1 .Bilinear .quiet ≠ .ok none := by
  have hf2 : ⌊(2:ℚ)⌋ = 2 := by
    rw [Int.floor_eq_iff]
    norm_num
  have hf1 : ⌊(1:ℚ)⌋ = 1 := by
    rw [Int.floor_eq_iff]
    norm_num
  have hval : interpolateAtPoint grid23 2 1 .Bilinear .quiet = .ok (some (23/20)) := by
    rw [interpolate_bilinear_in _ (by norm_num [inExtent, grid23]), bilinearVal_grid23_21]
  refine ⟨?_, ?_, hval, ?_⟩
  · rw [hf1, hf2]
    norm_num [inGrid, grid23]
  · rw [hf1, hf2]
    norm_num [inGrid, grid23]
  · rw [hval]
    simp

/-- C3 amended: the bilinear window extractor floors the half-pixel-shifted
coordinates, ix = floor(x - 0.5) and iy = floor(y - 0.5), and fetches the
2 x 2 footprint rows iy, iy+1 by cols ix, ix+1 through edge-clamped reads;
an in-extent query always yields the separable blend of that window. On the
2 x 3 grid the query (2, 1) has ix = 1, iy = 0 and returns
(1.3 + 0.5 + 3.8 - 1) / 4. -/
theorem bilinear_shifted_window (b : RasterBand) (x y : ℚ) (hin : inExtent b x y) :
    interpolateAtPoint b x y .Bilinear .quiet =
      .ok (some
        (readClamped b ⌊y - 1/2⌋ ⌊x - 1/2⌋
           * (1 - (x - 1/2 - ⌊x - 1/2⌋)) * (1 - (y - 1/2 - ⌊y - 1/2⌋)) +
         readClamped b ⌊y - 1/2⌋ (⌊x - 1/2⌋ + 1)
           * (x - 1/2 - ⌊x - 1/2⌋) * (1 - (y - 1/2 - ⌊y - 1/2⌋)) +
         readClamped b (⌊y - 1/2⌋ + 1) ⌊x - 1/2⌋
           * (1 - (x - 1/2 - ⌊x - 1/2⌋)) * (y - 1/2 - ⌊y - 1/2⌋) +
         readClamped b (⌊y - 1/2⌋ + 1) (⌊x - 1/2⌋ + 1)
           * (x - 1/2 - ⌊x - 1/2⌋) * (y - 1/2 - ⌊y - 1/2⌋))) ∧
    ⌊(2:ℚ) - 1/2⌋ = 1 ∧ ⌊(1:ℚ) - 1/2⌋ = 0 ∧
    interpolateAtPoint grid23 2 1 .Bilinear .quiet =
      .ok (some ((13/10 + 1/2 + 19/5 + -1) / 4)) := by
  refine ⟨?_, ?_, ?_, ?_⟩
  · rw [interpolate_bilinear_in _ hin, bilinearVal_eq b x y _ _ rfl rfl]
  · rw [Int.floor_eq_iff]
    norm_num
  · rw [Int.floor_eq_iff]
    norm_num
  · rw [interpolate_bilinear_in _ (by norm_num [inExtent, grid23]), bilinearVal_grid23_21]
    norm_num

theorem bilinear_shifted_window_witness :
    inExtent grid23 2 1 ∧
    interpolateAtPoint grid23 2 1 .Bilinear .quiet =
      .ok (some
        (readClamped grid23 ⌊(1:ℚ) - 1/2⌋ ⌊(2:ℚ) - 1/2⌋
           * (1 - ((2:ℚ) - 1/2 - ⌊(2:ℚ) - 1/2⌋)) * (1 - ((1:ℚ) - 1/2 - ⌊(1:ℚ) - 1/2⌋)) +
         readClamped grid23 ⌊(1:ℚ) - 1/2⌋ (⌊(2:ℚ) - 1/2⌋ + 1)
           * ((2:ℚ) - 1/2 - ⌊(2:ℚ) - 1/2⌋) * (1 - ((1:ℚ) - 1/2 - ⌊(1:ℚ) - 1/2⌋)) +
         readClamped grid23 (⌊(1:ℚ) - 1/2⌋ + 1) ⌊(2:ℚ) - 1/2⌋
           * (1 - ((2:ℚ) - 1/2 - ⌊(2:ℚ) - 1/2⌋)) * ((1:ℚ) - 1/2 - ⌊(1:ℚ) - 1/2⌋) +
         readClamped grid23 (⌊(1:ℚ) - 1/2⌋ + 1) (⌊(2:ℚ) - 1/2⌋ + 1)
           * ((2:ℚ) - 1/2 - ⌊(2:ℚ) - 1/2⌋) * ((1:ℚ) - 1/2 - ⌊(1:ℚ) - 1/2⌋))) := by
  have hin : inExtent grid23 2 1 := by norm_num [inExtent, grid23]
  exact ⟨hin, (bilinear_shifted_window grid23 2 1 hin).1⟩

/-- C4: bilinear interpolation reduces to the single corner sample when the
query coincides with the reference corner of the window (zero fractional
offsets) and to the arithmetic mean of the four window samples at the cell
midpoint; on the 2 x 2 test grid the query (1, 1) returns the mean 4.5 and
the query (0.5, 0.5) returns the pure corner sample 10.5. -/
theorem bilinear_corner_and_midpoint :
    (∀ (b : RasterBand) (ix iy : ℤ),
       inExtent b ((ix : ℚ) + 1/2) ((iy : ℚ) + 1/2) → inGrid b iy ix →
       interpolateAtPoint b ((ix : ℚ) + 1/2) ((iy : ℚ) + 1/2) .Bilinear .quiet =
         .ok (some (b.pix iy ix))) ∧
    (∀ (b : RasterBand) (ix iy : ℤ),
       inExtent b ((ix : ℚ) + 1) ((iy : ℚ) + 1) →
       inGrid b iy ix → inGrid b iy (ix + 1) →
       inGrid b (iy + 1) ix → inGrid b (iy + 1) (ix + 1) →
       interpolateAtPoint b ((ix : ℚ) + 1) ((iy : ℚ) + 1) .Bilinear .quiet =
         .ok (some ((b.pix iy ix + b.pix iy (ix + 1) +
                     b.pix (iy + 1) ix + b.pix (iy + 1) (ix + 1)) / 4))) ∧
    interpolateAtPoint grid22 1 1 .Bilinear .quiet = .ok (some (9/2)) ∧
    (9/2 : ℚ) = (21/2 + 13/10 + 12/5 + 19/5) / 4 ∧
    interpolateAtPoint grid22 (1/2) (1/2) .Bilinear .quiet = .ok (some (21/2)) ∧
    grid22.pix 0 0 = 21/2 := by
  have hhalf : ⌊(1:ℚ)/2⌋ = 0 := by
    rw [Int.floor_eq_iff]
    norm_num
  refine ⟨?_, ?_, ?_, by norm_num, ?_, by norm_num [grid22]⟩
  · intro b ix iy hin hg
    exact bilinear_at_corner b ix iy hin hg
  · intro b ix iy hin h00 h10 h01 h11
    have hx : ⌊((ix : ℚ) + 1) - 1/2⌋ = ix := by
      rw [show ((ix : ℚ) + 1) - 1/2 = 1/2 + (ix : ℚ) by ring, Int.floor_add_int, hhalf]
      omega
    have hy : ⌊((iy : ℚ) + 1) - 1/2⌋ = iy := by
      rw [show ((iy : ℚ) + 1) - 1/2 = 1/2 + (iy : ℚ) by ring, Int.floor_add_int, hhalf]
      omega
    rw [interpolate_bilinear_in _ hin, bilinearVal_eq b _ _ ix iy hx hy,
        readClamped_eq_pix h00, readClamped_eq_pix h10,
        readClamped_eq_pix h01, readClamped_eq_pix h11]
    simp only [InterpResult.ok.injEq, Option.some.injEq]
    ring
  · rw [interpolate_bilinear_in _ (by norm_num [inExtent, grid22]), bilinearVal_grid22_11]
  · rw [interpolate_bilinear_in _ (by norm_num [inExtent, grid22]), bilinearVal_grid22_half]

theorem bilinear_corner_and_midpoint_witness :
    (inExtent grid22 (((0:ℤ) : ℚ) + 1/2) (((0:ℤ) : ℚ) + 1/2) ∧ inGrid grid22 0 0) ∧
    interpolateAtPoint grid22 (((0:ℤ) : ℚ) + 1/2) (((0:ℤ) : ℚ) + 1/2) .Bilinear .quiet =
      .ok (some (grid22.pix 0 0)) := by
  have hin : inExtent grid22 (((0:ℤ) : ℚ) + 1/2) (((0:ℤ) : ℚ) + 1/2) := by
    norm_num [inExtent, grid22]
  have hg : inGrid grid22 0 0 := by norm_num [inGrid, grid22]
  exact ⟨⟨hin, hg⟩, bilinear_corner_and_midpoint.1 grid22 0 0 hin hg⟩

/-- C5: bilinear interpolation is the separable weighted sum
v00 (1-dx)(1-dy) + v10 dx (1-dy) + v01 (1-dx) dy + v11 dx dy over the 2 x 2
window; on the 2 x 3 test grid the query (2.1, 1.2) returns exactly
1.3 * 0.4 * 0.3 + 0.5 * 0.6 * 0.3 + 3.8 * 0.4 * 0.7 - 1 * 0.6 * 0.7. -/
theorem bilinear_separable_formula :
    (∀ (b : RasterBand) (x y : ℚ),
       inExtent b x y →
       inGrid b ⌊y - 1/2⌋ ⌊x - 1/2⌋ → inGrid b ⌊y - 1/2⌋ (⌊x - 1/2⌋ + 1) →
       inGrid b (⌊y - 1/2⌋ + 1) ⌊x - 1/2⌋ → inGrid b (⌊y - 1/2⌋ + 1) (⌊x - 1/2⌋ + 1) →
       interpolateAtPoint b x y .Bilinear .quiet =
         .ok (some
           (b.pix ⌊y - 1/2⌋ ⌊x - 1/2⌋
              * (1 - (x - 1/2 - ⌊x - 1/2⌋)) * (1 - (y - 1/2 - ⌊y - 1/2⌋)) +
            b.pix ⌊y - 1/2⌋ (⌊x - 1/2⌋ + 1)
              * (x - 1/2 - ⌊x - 1/2⌋) * (1 - (y - 1/2 - ⌊y - 1/2⌋)) +
            b.pix (⌊y - 1/2⌋ + 1) ⌊x - 1/2⌋
              * (1 - (x - 1/2 - ⌊x - 1/2⌋)) * (y - 1/2 - ⌊y - 1/2⌋) +
            b.pix (⌊y - 1/2⌋ + 1) (⌊x - 1/2⌋ + 1)
              * (x - 1/2 - ⌊x - 1/2⌋) * (y - 1/2 - ⌊y - 1/2⌋)))) ∧
    interpolateAtPoint grid23 (21/10) (6/5) .Bilinear .quiet =
      .ok (some (13/10 * (2/5) * (3/10) + 1/2 * (3/5) * (3/10) +
                 19/5 * (2/5) * (7/10) - 1 * ((3/5) * (7/10)))) := by
  constructor
  · intro b x y hin h00 h10 h01 h11
    rw [interpolate_bilinear_in _ hin, bilinearVal_eq b x y _ _ rfl rfl,
        readClamped_eq_pix h00, readClamped_eq_pix h10,
        readClamped_eq_pix h01, readClamped_eq_pix h11]
  · rw [interpolate_bilinear_in _ (by norm_num [inExtent, grid23]), bilinearVal_grid23_frac]
    norm_num

theorem bilinear_separable_formula_witness :
    inExtent grid23 (21/10) (6/5) ∧
    interpolateAtPoint grid23 (21/10) (6/5) .Bilinear .quiet =
      .ok (some
        (grid23.pix ⌊(6:ℚ)/5 - 1/2⌋ ⌊(21:ℚ)/10 - 1/2⌋
           * (1 - ((21:ℚ)/10 - 1/2 - ⌊(21:ℚ)/10 - 1/2⌋)) * (1 - ((6:ℚ)/5 - 1/2 - ⌊(6:ℚ)/5 - 1/2⌋)) +
         grid23.pix ⌊(6:ℚ)/5 - 1/2⌋ (⌊(21:ℚ)/10 - 1/2⌋ + 1)
           * ((21:ℚ)/10 - 1/2 - ⌊(21:ℚ)/10 - 1/2⌋) * (1 - ((6:ℚ)/5 - 1/2 - ⌊(6:ℚ)/5 - 1/2⌋)) +
         grid23.pix (⌊(6:ℚ)/5 - 1/2⌋ + 1) ⌊(21:ℚ)/10 - 1/2⌋
           * (1 - ((21:ℚ)/10 - 1/2 - ⌊(21:ℚ)/10 - 1/2⌋)) * ((6:ℚ)/5 - 1/2 - ⌊(6:ℚ)/5 - 1/2⌋) +
         grid23.pix (⌊(6:ℚ)/5 - 1/2⌋ + 1) (⌊(21:ℚ)/10 - 1/2⌋ + 1)
           * ((21:ℚ)/10 - 1/2 - ⌊(21:ℚ)/10 - 1/2⌋) * ((6:ℚ)/5 - 1/2 - ⌊(6:ℚ)/5 - 1/2⌋))) := by
  have hfx : ⌊(21:ℚ)/10 - 1/2⌋ = 1 := by
    rw [Int.floor_eq_iff]
    norm_num
  have hfy : ⌊(6:ℚ)/5 - 1/2⌋ = 0 := by
    rw [Int.floor_eq_iff]
    norm_num
  have hin : inExtent grid23 (21/10) (6/5) := by norm_num [inExtent, grid23]
  refine ⟨hin, bilinear_separable_formula.1 grid23 (21/10) (6/5) hin ?_ ?_ ?_ ?_⟩ <;>
    rw [hfx, hfy] <;> norm_num [inGrid, grid23]

/-- C6: cubic-spline interpolation uses the smoothing cubic B-spline kernel:
on the 4 x 4 test grid whose every row is [1.0, 2.0, 1.5, -0.3], the query
(1.5, 1.5) returns 1.75 while the raw sample there (the nearest-neighbour
value, taken from the pixel whose center is (1.5, 1.5)) is 2.0, and the
query (2.0, 2.0) returns 203/120, within 1e-6 of 1.6916666 and distinct from
the raw sample value 2.0. -/
theorem cubicspline_smoothing_values :
    interpolateAtPoint grid44 (3/2) (3/2) .CubicSpline .quiet = .ok (some (7/4)) ∧
    nearestVal grid44 (3/2) (3/2) = 2 ∧
    (7/4 : ℚ) ≠ 2 ∧
    interpolateAtPoint grid44 2 2 .CubicSpline .quiet = .ok (some (203/120)) ∧
    |(203/120 : ℚ) - 16916666/10000000| < 1/1000000 ∧
    (203/120 : ℚ) ≠ 2 := by
  have hf : ⌊(3:ℚ)/2 - 1/2 + 1/2⌋ = 1 := by
    rw [Int.floor_eq_iff]
    norm_num
  refine ⟨?_, ?_, by norm_num, ?_, by rw [abs_lt]; constructor <;> norm_num, by norm_num⟩
  · rw [interpolate_cubicspline_in _ (by norm_num [inExtent, grid44]),
        cubicSplineVal_grid44_15]
  · rw [nearestVal_eq grid44 _ _ 1 1 hf hf,
        readClamped_eq_pix (by norm_num [inGrid, grid44])]
    norm_num [grid44]
  · rw [interpolate_cubicspline_in _ (by norm_num [inExtent, grid44]),
        cubicSplineVal_grid44_22]

/-- C7: for every band and in-extent point whose rounded-to-nearest pixel is
inside the grid, the Nearest method returns exactly the raw sample at that
pixel, with no blending; the pixel indices are the half-up roundings of the
half-pixel-shifted coordinates. -/
theorem nearest_returns_rounded_sample (b : RasterBand) (x y : ℚ) (p : ErrorPolicy)
    (hin : inExtent b x y)
    (hg : inGrid b (round (y - 1/2)) (round (x - 1/2))) :
    interpolateAtPoint b x y .Nearest p =
      .ok (some (b.pix (round (y - 1/2)) (round (x - 1/2)))) := by
  have hx : ⌊x - 1/2 + 1/2⌋ = round (x - 1/2) := (round_eq _).symm
  have hy : ⌊y - 1/2 + 1/2⌋ = round (y - 1/2) := (round_eq _).symm
  rw [interpolate_nearest_in p hin, nearestVal_eq b x y _ _ hx hy,
      readClamped_eq_pix hg]

theorem nearest_returns_rounded_sample_witness :
    (inExtent grid22 (3/2) (1/2) ∧
     inGrid grid22 (round ((1:ℚ)/2 - 1/2)) (round ((3:ℚ)/2 - 1/2))) ∧
    interpolateAtPoint grid22 (3/2) (1/2) .Nearest .quiet =
      .ok (some (grid22.pix (round ((1:ℚ)/2 - 1/2)) (round ((3:ℚ)/2 - 1/2)))) := by
  have hr : round ((1:ℚ)/2 - 1/2) = 0 := by
    rw [round_eq, show (1:ℚ)/2 - 1/2 + 1/2 = 1/2 by ring, Int.floor_eq_iff]
    norm_num
  have hc : round ((3:ℚ)/2 - 1/2) = 1 := by
    rw [round_eq, show (3:ℚ)/2 - 1/2 + 1/2 = 3/2 by ring, Int.floor_eq_iff]
    norm_num
  have hin : inExtent grid22 (3/2) (1/2) := by norm_num [inExtent, grid22]
  have hg : inGrid grid22 (round ((1:ℚ)/2 - 1/2)) (round ((3:ℚ)/2 - 1/2)) := by
    rw [hr, hc]
    norm_num [inGrid, grid22]
  exact ⟨⟨hin, hg⟩, nearest_returns_rounded_sample grid22 (3/2) (1/2) .quiet hin hg⟩

/-- Band whose in-grid samples equal those of grid22 but whose sample
function differs everywhere outside the grid. -/
def grid22ext : RasterBand where
  width := 2
  height := 2
  pix := fun r c => if 0 ≤ r ∧ r < 2 ∧ 0 ≤ c ∧ c < 2 then grid22.pix r c else 99

/-- C8: multi-band noninterference: the result on a band depends only on the
extent and the in-grid samples of that band, so changing any other band of a
dataset, or anything outside the grid of this band, leaves the result
unchanged; on the two bands of test_interpolateatpoint_2_bands the bilinear
query (1, 1) yields each band's own mean, with the correct sign for the
band holding a negative sample. -/
theorem band_noninterference :
    (∀ (b1 b2 : RasterBand) (x y : ℚ) (m : InterpolationMethod) (p : ErrorPolicy),
       0 < b1.width → 0 < b1.height →
       b1.width = b2.width → b1.height = b2.height →
       (∀ r c : ℤ, inGrid b1 r c → b1.pix r c = b2.pix r c) →
       interpolateAtPoint b1 x y m p = interpolateAtPoint b2 x y m p) ∧
    interpolateAtPoint grid22 1 1 .Bilinear .quiet = .ok (some (9/2)) ∧
    interpolateAtPoint grid22neg 1 1 .Bilinear .quiet = .ok (some (33/10)) ∧
    (33/10 : ℚ) = (21/2 + 13/10 + -(12/5) + 19/5) / 4 := by
  refine ⟨?_, ?_, ?_, by norm_num⟩
  · intro b1 b2 x y m p hwpos hhpos hw hh hp
    exact interpolateAtPoint_congr b1 b2 hwpos hhpos hw hh hp x y m p
  · rw [interpolate_bilinear_in _ (by norm_num [inExtent, grid22]), bilinearVal_grid22_11]
  · rw [interpolate_bilinear_in _ (by norm_num [inExtent, grid22neg]), bilinearVal_grid22neg_11]

theorem band_noninterference_witness :
    (0 < grid22.width ∧ 0 < grid22.height ∧
     grid22.width = grid22ext.width ∧ grid22.height = grid22ext.height) ∧
    interpolateAtPoint grid22 (3/2) (1/2) .Nearest .quiet =
      interpolateAtPoint grid22ext (3/2) (1/2) .Nearest .quiet := by
  have hp : ∀ r c : ℤ, inGrid grid22 r c → grid22.pix r c = grid22ext.pix r c := by
    intro r c h
    simp only [inGrid, grid22, Nat.cast_ofNat] at h
    simp only [grid22ext]
    rw [if_pos h]
  refine ⟨⟨by norm_num [grid22], by norm_num [grid22], rfl, rfl⟩, ?_⟩
  exact band_noninterference.1 grid22 grid22ext (3/2) (1/2) .Nearest .quiet
    (by norm_num [grid22]) (by norm_num [grid22]) rfl rfl hp

/-- One engine invocation as seen by the surrounding system: a query point,
a method and the active error policy. -/
structure EngineCall where
  x : ℚ
  y : ℚ
  method : InterpolationMethod
  policy : ErrorPolicy

/-- Modelled from the spec: one synchronous call of the engine over the
system state it can reach, which is the raster band it reads; the call
computes its result from the band and is given no way to alter it. -/
def engineStep (b : RasterBand) (c : EngineCall) : InterpResult × RasterBand :=
  (interpolateAtPoint b c.x c.y c.method c.policy, b)

/-- Run a sequence of calls, threading the band state through every call and
collecting the results in order. -/
def runCalls (b : RasterBand) : List EngineCall → List InterpResult × RasterBand
  | [] => ([], b)
  | c :: rest =>
      ((engineStep b c).1 :: (runCalls (engineStep b c).2 rest).1,
       (runCalls (engineStep b c).2 rest).2)

theorem runCalls_state (b : RasterBand) (cs : List EngineCall) :
    (runCalls b cs).2 = b := by
  induction cs with
  | nil => rfl
  | cons c rest ih => simpa [runCalls, engineStep] using ih

theorem runCalls_results (b : RasterBand) (cs : List EngineCall) :
    (runCalls b cs).1 =
      cs.map (fun c => interpolateAtPoint b c.x c.y c.method c.policy) := by
  induction cs with
  | nil => rfl
  | cons c rest ih => simp [runCalls, engineStep, ih]

/-- C9: the engine is deterministic and stateless: a call executed after any
prefix of other calls returns the same result as the same call executed
first, every call's result is the pure function of the band contents and the
call arguments, and no sequence of calls changes the band state observable
afterwards; in particular two identical consecutive calls return identical
results, as in the repeated query of
test_interpolateatpoint_bilinear_several_points. -/
theorem engine_stateless_deterministic (b : RasterBand) (pre : List EngineCall)
    (c : EngineCall) :
    (runCalls b (pre ++ [c])).2 = b ∧
    (runCalls b (pre ++ [c])).1.getLast? =
      some (interpolateAtPoint b c.x c.y c.method c.policy) ∧
    (runCalls b (pre ++ [c])).1 =
      (pre ++ [c]).map (fun q => interpolateAtPoint b q.x q.y q.method q.policy) ∧
    (runCalls b [c, c]).1 =
      [interpolateAtPoint b c.x c.y c.method c.policy,
       interpolateAtPoint b c.x c.y c.method c.policy] := by
  refine ⟨runCalls_state b _, ?_, runCalls_results b _, ?_⟩
  · rw [runCalls_results, List.map_append]
    simp
  · rw [runCalls_results]
    rfl

/-- C10: for every band and pixel (row r, col c) whose enclosing 2 x 2
bilinear footprint lies in the grid, the bilinear query at the pixel center
(c + 0.5, r + 0.5) returns exactly the raw sample at (r, c); on the 2 x 2
test raster the query (1, 1) is still admitted, its window being the whole
grid, and returns a present value. -/
theorem pixel_center_identity :
    (∀ (b : RasterBand) (r c : ℤ),
       0 ≤ r → r + 1 < (b.height : ℤ) → 0 ≤ c → c + 1 < (b.width : ℤ) →
       interpolateAtPoint b ((c : ℚ) + 1/2) ((r : ℚ) + 1/2) .Bilinear .quiet =
         .ok (some (b.pix r c))) ∧
    (inGrid grid22 ⌊(1:ℚ) - 1/2⌋ ⌊(1:ℚ) - 1/2⌋ ∧
     inGrid grid22 (⌊(1:ℚ) - 1/2⌋ + 1) (⌊(1:ℚ) - 1/2⌋ + 1) ∧
     ∃ v : ℚ, interpolateAtPoint grid22 1 1 .Bilinear .quiet = .ok (some v)) := by
  have hhalf : ⌊(1:ℚ) - 1/2⌋ = 0 := by
    rw [Int.floor_eq_iff]
    norm_num
  constructor
  · intro b r c h0r hr h0c hc
    have hcw : (c : ℚ) + 1 ≤ (b.width : ℚ) := by
      exact_mod_cast (by omega : c + 1 ≤ (b.width : ℤ))
    have hrh : (r : ℚ) + 1 ≤ (b.height : ℚ) := by
      exact_mod_cast (by omega : r + 1 ≤ (b.height : ℤ))
    have h0cq : (0 : ℚ) ≤ (c : ℚ) := by exact_mod_cast h0c
    have h0rq : (0 : ℚ) ≤ (r : ℚ) := by exact_mod_cast h0r
    have hin : inExtent b ((c : ℚ) + 1/2) ((r : ℚ) + 1/2) := by
      refine ⟨by linarith, by linarith, by linarith, by linarith⟩
    have hg : inGrid b r c := ⟨h0r, by omega, h0c, by omega⟩
    exact bilinear_at_corner b c r hin hg
  · refine ⟨?_, ?_, ⟨9/2, ?_⟩⟩
    · rw [hhalf]
      norm_num [inGrid, grid22]
    · rw [hhalf]
      norm_num [inGrid, grid22]
    · rw [interpolate_bilinear_in _ (by norm_num [inExtent, grid22]), bilinearVal_grid22_11]

theorem pixel_center_identity_witness :
    (0 ≤ (0:ℤ) ∧ (0:ℤ) + 1 < (grid23.height : ℤ) ∧
     0 ≤ (1:ℤ) ∧ (1:ℤ) + 1 < (grid23.width : ℤ)) ∧
    interpolateAtPoint grid23 (((1:ℤ) : ℚ) + 1/2) (((0:ℤ) : ℚ) + 1/2) .Bilinear .quiet =
      .ok (some (grid23.pix 0 1)) := by
  refine ⟨⟨by norm_num, by norm_num [grid23], by norm_num, by norm_num [grid23]⟩, ?_⟩
  exact pixel_center_identity.1 grid23 0 1 (by norm_num) (by norm_num [grid23])
    (by norm_num) (by norm_num [grid23])

end InterpolateAtPoint
